import Mathlib

/-!
Verification of the experiment-orchestration core of the tigercontrol
(ctsb) repository, embedded shallowly from
src/ctsb/experiments/experiment.py.  Python dictionaries are modelled as
insertion-ordered association lists with in-place update, Python
exceptions as an explicit error type threaded through the methods, and
printed output as a list of strings.  The modules
ctsb.experiments.core, ctsb.experiments.precomputed and
ctsb.experiments.new_experiment are imported by experiment.py but are
not part of the given sources; the definitions that stand for them are
marked "Modelled from the spec:" and follow the specification's words,
or are passed in as explicit function parameters where the spec pins no
concrete behaviour (the fresh-run pipeline, the single-trial runner).
-/

/-- Python values as far as the claims need them: a class object (with
its `__name__`), an integer, or a string. -/
inductive PyVal where
  | cls (name : String)
  | int (n : Int)
  | str (s : String)
deriving DecidableEq, Repr

/-- A Python dictionary of hyperparameters (string keys). -/
abbrev Params := List (String × PyVal)

/-- Python exceptions distinguished by type, as far as the claims need
them. -/
inductive PyErr where
  | typeError
  | attributeError
  | keyError
  | assertionError
  | genericError
deriving DecidableEq, Repr

/-- A value passed for the `problems`/`models` argument of
`Experiment.initialize`: `None`, a list of id strings, a dict instance
mapping id to hyperparameters (`Option.none` meaning default
parameters), or the builtin class object `dict` itself (relevant because
the source tests `problems is dict`, an identity comparison with that
class object). -/
inductive ArgVal where
  | noneV
  | listIds (ids : List String)
  | dictMap (m : List (String × Option Params))
  | dictClass
deriving DecidableEq

/-- Python dictionary lookup `d[k]` as an option, on an
insertion-ordered association list. -/
def dget {α β : Type} [DecidableEq α] : List (α × β) → α → Option β
  | [], _ => Option.none
  | (k', v') :: rest, k => if k' = k then some v' else dget rest k

/-- Python dictionary assignment `d[k] = v`: replaces the value in place
(keeping the key's position) when the key exists, appends otherwise. -/
def dset {α β : Type} [DecidableEq α] : List (α × β) → α → β → List (α × β)
  | [], k, v => [(k, v)]
  | (k', v') :: rest, k, v =>
      if k' = k then (k, v) :: rest else (k', v') :: dset rest k v

/-- Python membership test `k in d` on a dictionary. -/
def hasKey {α β : Type} [DecidableEq α] (d : List (α × β)) (k : α) : Bool :=
  (dget d k).isSome

/-- Python's `%` string formatting restricted to `%s` specifiers:
substitutes the arguments left to right, and raises `TypeError` when
arguments are left over ("not all arguments converted") or missing. -/
def pyFormatChars : List Char → List String → Except PyErr (List Char)
  | [], [] => Except.ok []
  | [], _ :: _ => Except.error PyErr.typeError
  | '%' :: 's' :: rest, a :: args =>
      (pyFormatChars rest args).map (fun r => a.data ++ r)
  | '%' :: 's' :: _, [] => Except.error PyErr.typeError
  | c :: rest, args => (pyFormatChars rest args).map (fun r => c :: r)

/-- Python's `fmt % args` on strings (see `pyFormatChars`). -/
def pyFormat (fmt : String) (args : List String) : Except PyErr String :=
  (pyFormatChars fmt.data args).map fun cs => String.mk cs

/-- Python attribute access `v.__name__`: the name of a class object,
an `AttributeError` on other values. -/
def dunderName : PyVal → Except PyErr String
  | PyVal.cls n => Except.ok n
  | _ => Except.error PyErr.attributeError

/-- Python membership test `'optimizer' in model_params` where
`model_params` may be `None`: `None` is not iterable, so the test raises
`TypeError`. -/
def pyContains (key : String) : Option Params → Except PyErr Bool
  | Option.none => Except.error PyErr.typeError
  | some d => Except.ok (hasKey d key)

/-- Modelled from the spec: `to_dict` from ctsb.experiments.core (not
under src/).  Normalization rule of spec section 4.1: an ordered
sequence of ids maps each id to default hyperparameters, a mapping is
kept as is.  The spec is silent on `None` and on the class object
`dict`; both normalize to the empty mapping here (no claim depends on
those cases). -/
def to_dict : ArgVal → List (String × Option Params)
  | ArgVal.noneV => []
  | ArgVal.listIds ids => ids.map fun i => (i, Option.none)
  | ArgVal.dictMap m => m
  | ArgVal.dictClass => []

/-- Python identity test `x is dict`: true exactly when `x` is the
builtin class object `dict` itself, never for a dict instance. -/
def isDictClassObj : ArgVal → Bool
  | ArgVal.dictClass => true
  | _ => false

/-- A key of the results table: (metric, problem_id, model_id), as the
tuple keys written by `add_model` and read by `scoreboard`. -/
abbrev RKey := String × String × String

/-- A value of the results table: a loss series, or a scalar (the
`time`/`memory` pseudo-metric entries and the failure sentinel). -/
inductive RVal where
  | series (xs : List Int)
  | scalar (x : Int)
deriving DecidableEq, Repr

/-- The arguments `Experiment.initialize` hands to
`NewExperiment.initialize` in run-fresh mode (new_experiment.py is not
under src/; only the handed arguments are recorded). -/
structure NewExpArgs where
  problems : List (String × Option Params)
  models : List (String × Option Params)
  problem_to_models : Option (List (String × List String))
  metrics : List String
  timesteps : Nat
  verbose : Bool
  load_bar : Bool
deriving DecidableEq

/-- The attribute state of an `Experiment` instance.  `new_models`
models the attribute of that name read by `scoreboard`; it is
`Option.none` when the attribute has never been assigned (no method of
the class assigns it), in which case reading it raises
`AttributeError`. -/
structure ExperimentState where
  initialized : Bool
  problems : List (String × Option Params)
  models : List (String × Option Params)
  problem_to_models : Option (List (String × List String))
  metrics : List String
  use_precomputed : Bool
  timesteps : Nat
  verbose : Bool
  load_bar : Bool
  n_models : List (String × Nat)
  prob_model_to_result : List (RKey × RVal)
  new_experiment : Option NewExpArgs
  new_models : Option Bool
deriving DecidableEq

/-- Embeds `Experiment.__init__`: only `self.initialized = False` is
assigned; every other attribute is absent until `initialize` runs (the
absent attributes are given inert defaults here, and `new_models` is
`Option.none` meaning never assigned). -/
def experimentNew : ExperimentState :=
  { initialized := false
    problems := []
    models := []
    problem_to_models := Option.none
    metrics := []
    use_precomputed := true
    timesteps := 100
    verbose := true
    load_bar := true
    n_models := []
    prob_model_to_result := []
    new_experiment := Option.none
    new_models := Option.none }

/-- Pairs (problem_id, model_id) requested from the precomputed store:
the full cross-product when no `problem_to_models` restriction is given,
the enumerated pairs otherwise (spec sections 4.2 and 4.4). -/
def requestedPairs (problem_ids model_ids : List String) :
    Option (List (String × List String)) → List (String × String)
  | Option.none => problem_ids.flatMap fun p => model_ids.map fun m => (p, m)
  | some r => r.flatMap fun pm => pm.2.map fun m => (pm.1, m)

/-- Modelled from the spec: `precomputed.load_prob_model_to_result`
(precomputed.py is not under src/).  Returns the frozen results table
covering every requested (metric, problem_id, model_id) triple, each
with a loss series of the frozen timestep length; the stored numeric
data is abstracted as the oracle `data`. -/
def load_prob_model_to_result (frozenT : Nat)
    (data : String → String → String → Nat → Int)
    (problem_ids model_ids : List String)
    (problem_to_models : Option (List (String × List String)))
    (metrics : List String) : List (RKey × RVal) :=
  metrics.flatMap fun metric =>
    (requestedPairs problem_ids model_ids problem_to_models).map fun pm =>
      ((metric, pm.1, pm.2),
        RVal.series ((List.range frozenT).map (data metric pm.1 pm.2)))

/-- Embeds `Experiment.initialize` (experiment.py lines 18-66; the name
initialize itself is unavailable here).  `frozenT` stands for
`precomputed.get_timesteps()`, `data` for the precomputed store's
numeric content, and `pipeline` for
`NewExperiment.run_all_experiments()` (new_experiment.py is not under
src/).  Returns the updated state and the printed lines. -/
def initExp (frozenT : Nat)
    (data : String → String → String → Nat → Int)
    (pipeline : NewExpArgs → List (RKey × RVal))
    (st : ExperimentState)
    (problems models : ArgVal)
    (problem_to_models : Option (List (String × List String)))
    (metrics : List String) (use_precomputed : Bool) (timesteps : Nat)
    (verbose load_bar : Bool) : ExperimentState × List String :=
  let probDict := to_dict problems
  let modDict := to_dict models
  let st1 := { st with
    problems := probDict
    models := modDict
    problem_to_models := problem_to_models
    metrics := metrics
    use_precomputed := use_precomputed
    timesteps := timesteps
    verbose := verbose
    load_bar := load_bar
    n_models := [] }
  let log1 := if use_precomputed && !(timesteps = frozenT) then
      ["WARNING: when using precomputed results, number of timesteps is fixed."]
    else []
  if use_precomputed then
    let log2 := if isDictClassObj problems then
        ["WARNING: when using precomputed results, any specified problem hyperparameters will be disregarded and default ones will be used instead."]
      else []
    let log3 := if isDictClassObj models then
        ["WARNING: when using precomputed results, any specified model hyperparameters will be disregarded and default ones will be used instead."]
      else []
    let table := load_prob_model_to_result frozenT data
        (probDict.map fun p => p.1) (modDict.map fun p => p.1)
        problem_to_models metrics
    ({ st1 with prob_model_to_result := table }, log1 ++ log2 ++ log3)
  else
    let args : NewExpArgs :=
      { problems := probDict
        models := modDict
        problem_to_models := problem_to_models
        metrics := metrics
        timesteps := timesteps
        verbose := verbose
        load_bar := load_bar }
    ({ st1 with new_experiment := some args
                prob_model_to_result := pipeline args }, log1)

/-- Input of one call to `run_experiment` (ctsb.experiments.core, not
under src/): the arguments `add_model` passes at experiment.py lines
100-102.  Note the timestep count is `precomputed.get_timesteps()`,
passed here as the `timesteps` field. -/
structure TrialIn where
  problem_id : String
  problem_params : Option Params
  model_id : String
  model_params : Option Params
  metric : String
  key : Nat
  timesteps : Nat
  verbose : Bool
  load_bar : Bool

/-- Successful result of `run_experiment`: a loss series plus elapsed
time and peak memory. -/
structure TrialOut where
  loss : List Int
  time : Int
  memory : Int

/-- The external single-trial runner `run_experiment` as `add_model`
sees it: it either returns a loss/time/memory triple or raises.  Its
code (ctsb.experiments.core) is not under src/, so the claims are
settled for an arbitrary runner, constrained only where the spec
constrains it (spec section 4.3: the loss series of a successful trial
has one entry per timestep). -/
abbrev Runner := TrialIn → Except PyErr TrialOut

/-- Embeds experiment.py lines 78-92: derivation of the key under which
`add_model` stores the new model's results, given the already-resolved
`name` (see `resolveName`).  Returns the key and the updated `n_models`
duplicate-counter dictionary. -/
def deriveNewId (models : List (String × Option Params))
    (n_models : List (String × Nat)) (model_id : String)
    (name : Option String) : String × List (String × Nat) :=
  if hasKey models model_id then
    let n0 := if hasKey n_models model_id then n_models
              else dset n_models model_id 0
    match name with
    | some nm => (model_id ++ "-" ++ nm, n0)
    | Option.none =>
        let c := (dget n0 model_id).getD 0 + 1
        (model_id ++ "-" ++ toString c, dset n0 model_id c)
  else (model_id, n_models)

/-- Embeds experiment.py lines 79-80: `if name is None and 'optimizer'
in model_params: name = model_params['optimizer'].__name__`.  The
membership test raises `TypeError` when `model_params` is `None`, and
`__name__` raises `AttributeError` on a value that has no name. -/
def resolveName (name : Option String) (mp : Option Params) :
    Except PyErr (Option String) :=
  match name with
  | some n => Except.ok (some n)
  | Option.none =>
      match pyContains "optimizer" mp with
      | Except.error e => Except.error e
      | Except.ok false => Except.ok Option.none
      | Except.ok true =>
          match mp with
          | Option.none => Except.error PyErr.typeError
          | some d =>
              match dget d "optimizer" with
              | Option.none => Except.error PyErr.keyError
              | some v =>
                  match dunderName v with
                  | Except.error e => Except.error e
                  | Except.ok nm => Except.ok (some nm)

/-- Embeds the metric-and-problem loop of `add_model` (experiment.py
lines 95-112).  Each iteration tries `run_experiment`; on success it
stores the model parameters under the derived key and writes the
(metric, problem, key), (time, problem, key) and (memory, problem, key)
entries.  On failure, the `except` block first evaluates the argument of
`print`: the source's operator precedence applies `%` to the right-hand
string literal, which has no format specifiers, so formatting it with
the two arguments raises `TypeError`, which propagates (aborting the
loop with the state written so far); were formatting to succeed, the
sentinel `(0, -1, -1)` would be recorded and the loop would continue.
Returns (raised exception if any, final state, printed lines). -/
def runPairs (runner : Runner) (frozenT frozenKey : Nat)
    (model_id : String) (mp : Option Params) (new_id : String) :
    List (String × String × Option Params) → ExperimentState →
    List String → Option PyErr × ExperimentState × List String
  | [], st, log => (Option.none, st, log)
  | (metric, pid, pparams) :: rest, st, log =>
      match runner { problem_id := pid, problem_params := pparams,
                     model_id := model_id, model_params := mp,
                     metric := metric, key := frozenKey,
                     timesteps := frozenT, verbose := st.verbose,
                     load_bar := st.load_bar } with
      | Except.ok r =>
          let st' := { st with
            models := dset st.models new_id mp
            prob_model_to_result :=
              dset (dset (dset st.prob_model_to_result
                      (metric, pid, new_id) (RVal.series r.loss))
                    ("time", pid, new_id) (RVal.scalar r.time))
                  ("memory", pid, new_id) (RVal.scalar r.memory) }
          runPairs runner frozenT frozenKey model_id mp new_id rest st' log
      | Except.error _ =>
          match pyFormat "Please make sure model and problem are compatible." [pid, model_id] with
          | Except.error e => (some e, st, log)
          | Except.ok s =>
              let st' := { st with
                models := dset st.models new_id mp
                prob_model_to_result :=
                  dset (dset (dset st.prob_model_to_result
                          (metric, pid, new_id) (RVal.scalar 0))
                        ("time", pid, new_id) (RVal.scalar (-1)))
                      ("memory", pid, new_id) (RVal.scalar (-1)) }
              runPairs runner frozenT frozenKey model_id mp new_id rest st'
                (log ++ ["ERROR: Could not run %s on %s. " ++ s])

/-- Embeds `Experiment.add_model` (experiment.py lines 68-112).
`model_id` is `Option String` so that the `assert model_id is not None`
guard is captured; `frozenT` and `frozenKey` stand for
`precomputed.get_timesteps()` and `precomputed.get_key()`.  Returns
(raised exception if any, state after the call, printed lines): on an
uncaught exception the mutations made before the raise persist, as they
do on the Python object. -/
def add_model (runner : Runner) (frozenT frozenKey : Nat)
    (st : ExperimentState) (model_id : Option String) (mp : Option Params)
    (name : Option String) : Option PyErr × ExperimentState × List String :=
  match model_id with
  | Option.none => (some PyErr.assertionError, st, [])
  | some mid =>
      match resolveName name mp with
      | Except.error e => (some e, st, [])
      | Except.ok nm =>
          let idn := deriveNewId st.models st.n_models mid nm
          let st1 := { st with n_models := idn.2 }
          let pairs := st1.metrics.flatMap fun metric =>
            st1.problems.map fun pp => (metric, pp.1, pp.2)
          runPairs runner frozenT frozenKey mid mp idn.1 pairs st1 []

/-- Mean of a results-table value as `np.mean` computes it in
`scoreboard` (a rational, since a series mean need not be integral; the
mean of an empty series, `nan` in numpy, is represented by 0 — no claim
observes it). -/
def meanRV : RVal → Rat
  | RVal.series xs => (xs.sum : Rat) / (xs.length : Rat)
  | RVal.scalar x => (x : Rat)

/-- Scores of one scoreboard row (experiment.py lines 146-147): the mean
result of each model on one problem; a missing table entry raises
`KeyError`. -/
def scoreRow (table : List (RKey × RVal)) (metric pid : String) :
    List String → Except PyErr (List Rat)
  | [] => Except.ok []
  | m :: ms =>
      match dget table (metric, pid, m) with
      | Option.none => Except.error PyErr.keyError
      | some v => (scoreRow table metric pid ms).map fun r => meanRV v :: r

/-- Rows of the scoreboard table (experiment.py lines 143-149): one row
per problem. -/
def scoreRows (table : List (RKey × RVal)) (metric : String)
    (model_ids : List String) :
    List String → Except PyErr (List (String × List Rat))
  | [] => Except.ok []
  | p :: ps =>
      match scoreRow table metric p model_ids with
      | Except.error e => Except.error e
      | Except.ok row =>
          (scoreRows table metric model_ids ps).map fun rest => (p, row) :: rest

/-- Embeds `Experiment.scoreboard` (experiment.py lines 114-157), up to
the presentation externals (PrettyTable rendering and the csv export,
which only consume the computed rows).  `get_ids` (ctsb.experiments.core,
not under src/) is modelled from the spec as the ordered key sequence of
a mapping.  The guard at line 124 reads `self.new_models` only when
`self.use_precomputed` and `metric == 'time'` are both true; since that
attribute is never assigned, reading it raises `AttributeError`.
Returns the printed lines and the table rows. -/
def scoreboard (st : ExperimentState) (metric : String) (verbose : Bool) :
    Except PyErr (List String × List (String × List Rat)) :=
  match (if st.use_precomputed && metric == "time" then
          match st.new_models with
          | Option.none => Except.error PyErr.attributeError
          | some b => Except.ok (if b then
              ["WARNING: Time comparison between precomputed models andany added model may be irrelevant due to hardware differences."]
            else [])
        else Except.ok []) with
  | Except.error e => Except.error e
  | Except.ok log1 =>
      let log2 := if verbose then ["Average " ++ metric ++ ":"] else []
      let problem_ids := st.problems.map fun p => p.1
      let model_ids := st.models.map fun p => p.1
      match scoreRows st.prob_model_to_result metric model_ids problem_ids with
      | Except.error e => Except.error e
      | Except.ok rows => Except.ok (log1 ++ log2, rows)

/-- The claim's key-derivation rule, stated in the spec's own words
(spec section 4.4): reuse `model_id` as-is if never seen before (not a
key of the models mapping); otherwise append the resolved name when one
exists; otherwise append the incremented per-model_id duplicate
counter. -/
def claimDerivedKey (models : List (String × Option Params))
    (n_models : List (String × Nat)) (model_id : String)
    (name : Option String) : String :=
  if hasKey models model_id then
    match name with
    | some nm => model_id ++ "-" ++ nm
    | Option.none => model_id ++ "-" ++ toString ((dget n_models model_id).getD 0 + 1)
  else model_id

/-- A runner for concrete evaluations: every trial succeeds, with a
zero loss series of the requested length (one entry per timestep, as
spec section 4.3 requires) and unit time and memory. -/
def okRunner : Runner := fun inp =>
  Except.ok { loss := List.replicate inp.timesteps 0, time := 1, memory := 1 }

/-- A runner for concrete evaluations: every trial raises (an
incompatible problem/model pair). -/
def failRunner : Runner := fun _ => Except.error PyErr.genericError

/-- A concrete precomputed-store data oracle for evaluations. -/
def zeroData : String → String → String → Nat → Int := fun _ _ _ _ => 0

/-- A concrete fresh-run pipeline for evaluations. -/
def emptyPipeline : NewExpArgs → List (RKey × RVal) := fun _ => []

/-- An experiment initialized (precomputed mode, frozen timesteps 100)
with the one problem "ARMA-v0", no models, and metric "mse". -/
def expArmaNoModels : ExperimentState :=
  (initExp 100 zeroData emptyPipeline experimentNew
    (ArgVal.listIds ["ARMA-v0"]) (ArgVal.listIds []) Option.none
    ["mse"] true 100 true true).1

/-- An experiment initialized (precomputed mode, frozen timesteps 100)
with the one problem "ARMA-v0", the model "RNN", metric "mse", and a
configured timestep count of 50. -/
def expArmaRNN50 : ExperimentState :=
  (initExp 100 zeroData emptyPipeline experimentNew
    (ArgVal.listIds ["ARMA-v0"]) (ArgVal.listIds ["RNN"]) Option.none
    ["mse"] true 50 true true).1

/-- An experiment initialized (precomputed mode, frozen timesteps 100)
with the one problem "p0", the model "M", and metric "mse". -/
def expP0M : ExperimentState :=
  (initExp 100 zeroData emptyPipeline experimentNew
    (ArgVal.listIds ["p0"]) (ArgVal.listIds ["M"]) Option.none
    ["mse"] true 100 true true).1

theorem dget_dset_self {α β : Type} [DecidableEq α]
    (d : List (α × β)) (k : α) (v : β) : dget (dset d k v) k = some v := by
  induction d with
  | nil => simp [dset, dget]
  | cons hd tl ih =>
      by_cases h : hd.1 = k
      · simp [dset, dget, h]
      · simp [dset, dget, h, ih]

theorem dget_dset_ne {α β : Type} [DecidableEq α]
    (d : List (α × β)) (k' k : α) (v : β) (h : k' ≠ k) :
    dget (dset d k' v) k = dget d k := by
  induction d with
  | nil => simp [dset, dget, h]
  | cons hd tl ih =>
      by_cases h1 : hd.1 = k'
      · simp [dset, dget, h1, h]
      · simp only [dset, if_neg h1]
        by_cases h2 : hd.1 = k
        · simp [dget, h2]
        · simp [dget, h2, ih]

theorem isSome_dget_dset {α β : Type} [DecidableEq α]
    (d : List (α × β)) (k' k : α) (v : β)
    (h : (dget d k).isSome = true) :
    (dget (dset d k' v) k).isSome = true := by
  by_cases hk : k' = k
  · subst hk; simp [dget_dset_self]
  · rw [dget_dset_ne d k' k v hk]; exact h

theorem runPairs_frame (runner : Runner) (frozenT frozenKey : Nat)
    (model_id : String) (mp : Option Params) (new_id : String)
    (pairs : List (String × String × Option Params))
    (st : ExperimentState) (log : List String) (k : RKey)
    (hk : k.2.2 ≠ new_id) :
    dget (runPairs runner frozenT frozenKey model_id mp new_id
            pairs st log).2.1.prob_model_to_result k
      = dget st.prob_model_to_result k := by
  induction pairs generalizing st log with
  | nil => simp [runPairs]
  | cons hd tl ih =>
      obtain ⟨metric, pid, pparams⟩ := hd
      have hne : ∀ a : String, (a, pid, new_id) ≠ k := by
        intro a hcontra
        exact hk (by rw [← hcontra])
      simp only [runPairs]
      cases runner { problem_id := pid, problem_params := pparams,
                     model_id := model_id, model_params := mp,
                     metric := metric, key := frozenKey,
                     timesteps := frozenT, verbose := st.verbose,
                     load_bar := st.load_bar } with
      | ok r =>
          rw [ih]
          simp only []
          rw [dget_dset_ne _ _ _ _ (hne "memory"),
              dget_dset_ne _ _ _ _ (hne "time"),
              dget_dset_ne _ _ _ _ (hne metric)]
      | error e =>
          cases hfmt : pyFormat "Please make sure model and problem are compatible." [pid, model_id] with
          | error e2 => simp
          | ok s =>
              rw [ih]
              simp only []
              rw [dget_dset_ne _ _ _ _ (hne "memory"),
                  dget_dset_ne _ _ _ _ (hne "time"),
                  dget_dset_ne _ _ _ _ (hne metric)]

theorem runPairs_table_mono (runner : Runner) (frozenT frozenKey : Nat)
    (model_id : String) (mp : Option Params) (new_id : String)
    (pairs : List (String × String × Option Params))
    (st : ExperimentState) (log : List String) (k : RKey)
    (h : (dget st.prob_model_to_result k).isSome = true) :
    (dget (runPairs runner frozenT frozenKey model_id mp new_id
            pairs st log).2.1.prob_model_to_result k).isSome = true := by
  induction pairs generalizing st log with
  | nil => simpa [runPairs] using h
  | cons hd tl ih =>
      obtain ⟨metric, pid, pparams⟩ := hd
      simp only [runPairs]
      cases runner { problem_id := pid, problem_params := pparams,
                     model_id := model_id, model_params := mp,
                     metric := metric, key := frozenKey,
                     timesteps := frozenT, verbose := st.verbose,
                     load_bar := st.load_bar } with
      | ok r =>
          exact ih _ _ (isSome_dget_dset _ _ _ _
            (isSome_dget_dset _ _ _ _ (isSome_dget_dset _ _ _ _ h)))
      | error e =>
          cases hfmt : pyFormat "Please make sure model and problem are compatible." [pid, model_id] with
          | error e2 => simpa using h
          | ok s =>
              exact ih _ _ (isSome_dget_dset _ _ _ _
                (isSome_dget_dset _ _ _ _ (isSome_dget_dset _ _ _ _ h)))

theorem runPairs_models_mono (runner : Runner) (frozenT frozenKey : Nat)
    (model_id : String) (mp : Option Params) (new_id : String)
    (pairs : List (String × String × Option Params))
    (st : ExperimentState) (log : List String) (x : String)
    (h : hasKey st.models x = true) :
    hasKey (runPairs runner frozenT frozenKey model_id mp new_id
            pairs st log).2.1.models x = true := by
  induction pairs generalizing st log with
  | nil => simpa [runPairs] using h
  | cons hd tl ih =>
      obtain ⟨metric, pid, pparams⟩ := hd
      simp only [runPairs]
      cases runner { problem_id := pid, problem_params := pparams,
                     model_id := model_id, model_params := mp,
                     metric := metric, key := frozenKey,
                     timesteps := frozenT, verbose := st.verbose,
                     load_bar := st.load_bar } with
      | ok r =>
          exact ih _ _ (by simpa [hasKey] using
            isSome_dget_dset st.models new_id x mp (by simpa [hasKey] using h))
      | error e =>
          cases hfmt : pyFormat "Please make sure model and problem are compatible." [pid, model_id] with
          | error e2 => simpa using h
          | ok s =>
              exact ih _ _ (by simpa [hasKey] using
                isSome_dget_dset st.models new_id x mp (by simpa [hasKey] using h))

theorem runPairs_n_models (runner : Runner) (frozenT frozenKey : Nat)
    (model_id : String) (mp : Option Params) (new_id : String)
    (pairs : List (String × String × Option Params))
    (st : ExperimentState) (log : List String) :
    (runPairs runner frozenT frozenKey model_id mp new_id
        pairs st log).2.1.n_models = st.n_models := by
  induction pairs generalizing st log with
  | nil => simp [runPairs]
  | cons hd tl ih =>
      obtain ⟨metric, pid, pparams⟩ := hd
      simp only [runPairs]
      cases runner { problem_id := pid, problem_params := pparams,
                     model_id := model_id, model_params := mp,
                     metric := metric, key := frozenKey,
                     timesteps := frozenT, verbose := st.verbose,
                     load_bar := st.load_bar } with
      | ok r => rw [ih]
      | error e =>
          cases hfmt : pyFormat "Please make sure model and problem are compatible." [pid, model_id] with
          | error e2 => simp
          | ok s => rw [ih]

theorem runPairs_metrics (runner : Runner) (frozenT frozenKey : Nat)
    (model_id : String) (mp : Option Params) (new_id : String)
    (pairs : List (String × String × Option Params))
    (st : ExperimentState) (log : List String) :
    (runPairs runner frozenT frozenKey model_id mp new_id
        pairs st log).2.1.metrics = st.metrics := by
  induction pairs generalizing st log with
  | nil => simp [runPairs]
  | cons hd tl ih =>
      obtain ⟨metric, pid, pparams⟩ := hd
      simp only [runPairs]
      cases runner { problem_id := pid, problem_params := pparams,
                     model_id := model_id, model_params := mp,
                     metric := metric, key := frozenKey,
                     timesteps := frozenT, verbose := st.verbose,
                     load_bar := st.load_bar } with
      | ok r => rw [ih]
      | error e =>
          cases hfmt : pyFormat "Please make sure model and problem are compatible." [pid, model_id] with
          | error e2 => simp
          | ok s => rw [ih]

theorem runPairs_problems (runner : Runner) (frozenT frozenKey : Nat)
    (model_id : String) (mp : Option Params) (new_id : String)
    (pairs : List (String × String × Option Params))
    (st : ExperimentState) (log : List String) :
    (runPairs runner frozenT frozenKey model_id mp new_id
        pairs st log).2.1.problems = st.problems := by
  induction pairs generalizing st log with
  | nil => simp [runPairs]
  | cons hd tl ih =>
      obtain ⟨metric, pid, pparams⟩ := hd
      simp only [runPairs]
      cases runner { problem_id := pid, problem_params := pparams,
                     model_id := model_id, model_params := mp,
                     metric := metric, key := frozenKey,
                     timesteps := frozenT, verbose := st.verbose,
                     load_bar := st.load_bar } with
      | ok r => rw [ih]
      | error e =>
          cases hfmt : pyFormat "Please make sure model and problem are compatible." [pid, model_id] with
          | error e2 => simp
          | ok s => rw [ih]

theorem runPairs_new_models (runner : Runner) (frozenT frozenKey : Nat)
    (model_id : String) (mp : Option Params) (new_id : String)
    (pairs : List (String × String × Option Params))
    (st : ExperimentState) (log : List String) :
    (runPairs runner frozenT frozenKey model_id mp new_id
        pairs st log).2.1.new_models = st.new_models := by
  induction pairs generalizing st log with
  | nil => simp [runPairs]
  | cons hd tl ih =>
      obtain ⟨metric, pid, pparams⟩ := hd
      simp only [runPairs]
      cases runner { problem_id := pid, problem_params := pparams,
                     model_id := model_id, model_params := mp,
                     metric := metric, key := frozenKey,
                     timesteps := frozenT, verbose := st.verbose,
                     load_bar := st.load_bar } with
      | ok r => rw [ih]
      | error e =>
          cases hfmt : pyFormat "Please make sure model and problem are compatible." [pid, model_id] with
          | error e2 => simp
          | ok s => rw [ih]

theorem runPairs_mem_present (runner : Runner) (frozenT frozenKey : Nat)
    (model_id : String) (mp : Option Params) (new_id : String)
    (pairs : List (String × String × Option Params))
    (st : ExperimentState) (log : List String)
    (mtr pid : String) (pp : Option Params)
    (hrun : ∀ inp, ∃ r, runner inp = Except.ok r)
    (hmem : (mtr, pid, pp) ∈ pairs) :
    (dget (runPairs runner frozenT frozenKey model_id mp new_id
        pairs st log).2.1.prob_model_to_result (mtr, pid, new_id)).isSome
      = true := by
  induction pairs generalizing st log with
  | nil => cases hmem
  | cons hd tl ih =>
      obtain ⟨m0, p0, pp0⟩ := hd
      obtain ⟨r, hr⟩ := hrun { problem_id := p0, problem_params := pp0,
                               model_id := model_id, model_params := mp,
                               metric := m0, key := frozenKey,
                               timesteps := frozenT, verbose := st.verbose,
                               load_bar := st.load_bar }
      simp only [runPairs]
      rw [hr]
      rcases List.mem_cons.mp hmem with heq | htl
      · simp only [Prod.mk.injEq] at heq
        obtain ⟨rfl, rfl, rfl⟩ := heq
        apply runPairs_table_mono
        simp only []
        exact isSome_dget_dset _ _ _ _ (isSome_dget_dset _ _ _ _
          (by rw [dget_dset_self]; rfl))
      · exact ih _ _ htl

theorem runPairs_err_none (runner : Runner) (frozenT frozenKey : Nat)
    (model_id : String) (mp : Option Params) (new_id : String)
    (pairs : List (String × String × Option Params))
    (st : ExperimentState) (log : List String)
    (hrun : ∀ inp, ∃ r, runner inp = Except.ok r) :
    (runPairs runner frozenT frozenKey model_id mp new_id
        pairs st log).1 = Option.none := by
  induction pairs generalizing st log with
  | nil => simp [runPairs]
  | cons hd tl ih =>
      obtain ⟨m0, p0, pp0⟩ := hd
      obtain ⟨r, hr⟩ := hrun { problem_id := p0, problem_params := pp0,
                               model_id := model_id, model_params := mp,
                               metric := m0, key := frozenKey,
                               timesteps := frozenT, verbose := st.verbose,
                               load_bar := st.load_bar }
      simp only [runPairs]
      rw [hr]
      exact ih _ _

theorem scoreRow_error_eq (table : List (RKey × RVal)) (metric pid : String)
    (ids : List String) (e : PyErr)
    (h : scoreRow table metric pid ids = Except.error e) :
    e = PyErr.keyError := by
  induction ids with
  | nil => simp [scoreRow] at h
  | cons m ms ih =>
      simp only [scoreRow] at h
      cases hg : dget table (metric, pid, m) with
      | none =>
          rw [hg] at h
          injection h with h2
          exact h2.symm
      | some v =>
          rw [hg] at h
          cases hr : scoreRow table metric pid ms with
          | error e2 =>
              rw [hr] at h
              simp only [Except.map] at h
              injection h with h2
              subst h2
              exact ih hr
          | ok row => rw [hr] at h; simp [Except.map] at h

theorem scoreRows_error_eq (table : List (RKey × RVal)) (metric : String)
    (model_ids pids : List String) (e : PyErr)
    (h : scoreRows table metric model_ids pids = Except.error e) :
    e = PyErr.keyError := by
  induction pids with
  | nil => simp [scoreRows] at h
  | cons p ps ih =>
      simp only [scoreRows] at h
      cases hr : scoreRow table metric p model_ids with
      | error e2 =>
          rw [hr] at h
          injection h with h2
          subst h2
          exact scoreRow_error_eq _ _ _ _ _ hr
      | ok row =>
          rw [hr] at h
          cases hrs : scoreRows table metric model_ids ps with
          | error e2 =>
              rw [hrs] at h
              simp only [Except.map] at h
              injection h with h2
              subst h2
              exact ih hrs
          | ok rows => rw [hrs] at h; simp [Except.map] at h

theorem dget_of_mem_keyed {α β : Type} [DecidableEq α]
    (l : List (α × β)) (F : α → β) (k : α)
    (hval : ∀ e ∈ l, e.2 = F e.1) (hmem : k ∈ l.map Prod.fst) :
    dget l k = some (F k) := by
  induction l with
  | nil => cases hmem
  | cons hd tl ih =>
      by_cases hk : hd.1 = k
      · have := hval hd (List.mem_cons_self hd tl)
        simp [dget, hk, this, hk ▸ this]
      · have hmem2 : k ∈ tl.map Prod.fst := by
          rcases List.mem_map.mp hmem with ⟨e, he, hek⟩
          rcases List.mem_cons.mp he with rfl | he2
          · exact absurd hek hk
          · exact List.mem_map.mpr ⟨e, he2, hek⟩
        simp only [dget, if_neg hk]
        exact ih (fun e he => hval e (List.mem_cons_of_mem hd he)) hmem2

theorem load_covers (frozenT : Nat)
    (data : String → String → String → Nat → Int)
    (problem_ids model_ids : List String)
    (problem_to_models : Option (List (String × List String)))
    (metrics : List String) (mtr : String) (pm : String × String)
    (hm : mtr ∈ metrics)
    (hp : pm ∈ requestedPairs problem_ids model_ids problem_to_models) :
    dget (load_prob_model_to_result frozenT data problem_ids model_ids
            problem_to_models metrics) (mtr, pm.1, pm.2)
      = some (RVal.series ((List.range frozenT).map (data mtr pm.1 pm.2))) := by
  have := dget_of_mem_keyed
    (load_prob_model_to_result frozenT data problem_ids model_ids
      problem_to_models metrics)
    (fun k => RVal.series ((List.range frozenT).map (data k.1 k.2.1 k.2.2)))
    (mtr, pm.1, pm.2) ?hval ?hmem
  · exact this
  case hval =>
      intro e he
      simp only [load_prob_model_to_result, List.mem_flatMap, List.mem_map] at he
      obtain ⟨m1, _, q, _, hq⟩ := he
      rw [← hq]
  case hmem =>
      simp only [load_prob_model_to_result, List.map_flatMap, List.mem_flatMap,
        List.mem_map, List.map_map]
      exact ⟨mtr, hm, by
        simp only [List.mem_map, Function.comp]
        exact ⟨pm, hp, rfl⟩⟩

/-- C1: the claim says any exception raised while running a trial inside
`add_model` is caught, converted to the sentinel TrialResult (0, -1, -1)
under the derived key, and iteration continues.  On the code this fails:
in the `except` handler the argument of `print` applies `%` (by operator
precedence) to a string literal with no format specifiers and a 2-tuple,
which raises `TypeError`; that exception propagates out of `add_model`,
no sentinel entry is recorded, no line is printed, and the remaining
(metric, problem) combinations are skipped.  Evaluated here at a
concrete failing input: an initialized experiment with problem
"ARMA-v0" and metric "mse", and a model "BadModel" whose trial
raises. -/
theorem c1_trial_failure_raises_and_records_nothing :
    (add_model failRunner 100 0 expArmaNoModels (some "BadModel")
        (some []) Option.none).1 = some PyErr.typeError
    ∧ dget (add_model failRunner 100 0 expArmaNoModels (some "BadModel")
        (some []) Option.none).2.1.prob_model_to_result
        ("mse", "ARMA-v0", "BadModel") = Option.none
    ∧ dget (add_model failRunner 100 0 expArmaNoModels (some "BadModel")
        (some []) Option.none).2.1.prob_model_to_result
        ("time", "ARMA-v0", "BadModel") = Option.none
    ∧ (add_model failRunner 100 0 expArmaNoModels (some "BadModel")
        (some []) Option.none).2.2 = [] := by
  refine ⟨?_, ?_, ?_, ?_⟩ <;> decide

/-- C2: the claim says that under `use_precomputed` a mapping with
explicit hyperparameters for `problems` (or `models`) triggers a printed
warning that they will be disregarded.  On the code this fails: the
guard is `problems is dict`, an identity comparison with the builtin
class object `dict`, which is false for every dict instance, so no
warning is printed.  Evaluated at a concrete input: `initialize` in
precomputed mode with `problems` a dict carrying a hyperparameter and
timesteps equal to the frozen value prints nothing at all. -/
theorem c2_no_hyperparameter_warning_printed :
    (initExp 100 zeroData emptyPipeline experimentNew
        (ArgVal.dictMap [("ARMA-v0", some [("p", PyVal.int 3)])])
        (ArgVal.listIds ["RNN"]) Option.none ["mse"] true 100
        true true).2 = [] := by
  decide

/-- C9: calling `add_model` with a non-None model_id and `model_params`
left at its default `None` raises an uncaught `TypeError` from the
membership test `'optimizer' in model_params` before any trial is run;
the state (in particular the results table) is returned unchanged and
nothing is printed, for every experiment state and every runner. -/
theorem c9_default_model_params_typeError (runner : Runner)
    (frozenT frozenKey : Nat) (st : ExperimentState) (mid : String) :
    add_model runner frozenT frozenKey st (some mid) Option.none
        Option.none = (some PyErr.typeError, st, []) := rfl

/-- C3, counterexample: the claim quantifies over every experiment
initialized with one problem "ARMA-v0" and metric "mse" and asserts the
inserted key is ("mse", "ARMA-v0", "RNN-SomeOptimizer") with a series of
the experiment's configured timestep length.  Both parts fail on the
code.  First input: when "RNN" is not among the experiment's models, the
key derivation reuses the bare id "RNN" and no "RNN-SomeOptimizer" entry
appears.  Second input: an experiment configured with timesteps 50
(frozen precomputed count 100); `add_model` runs the trial with
`precomputed.get_timesteps()`, so the stored series has length 100, not
the configured 50. -/
theorem c3_counterexample :
    (dget (add_model okRunner 100 0 expArmaNoModels (some "RNN")
        (some [("optimizer", PyVal.cls "SomeOptimizer")])
        Option.none).2.1.prob_model_to_result
        ("mse", "ARMA-v0", "RNN-SomeOptimizer") = Option.none)
    ∧ expArmaRNN50.timesteps = 50
    ∧ (dget (add_model okRunner 100 0 expArmaRNN50 (some "RNN")
        (some [("optimizer", PyVal.cls "SomeOptimizer")])
        Option.none).2.1.prob_model_to_result
        ("mse", "ARMA-v0", "RNN-SomeOptimizer")
      = some (RVal.series (List.replicate 100 0))) := by
  refine ⟨?_, ?_, ?_⟩ <;> decide

/-- C4, counterexample: the claim says the first of two anonymous
duplicate `add_model` calls stores under key model_id-1 and the second
under model_id-2, for every initialized experiment.  On the code the
suffixing happens only when model_id is already a key of the models
mapping: on an experiment whose models do not include "M", the first
call stores under the bare key "M" and no "M-1" entry exists. -/
theorem c4_counterexample :
    (dget (add_model okRunner 100 0 expArmaNoModels (some "M")
        (some []) Option.none).2.1.prob_model_to_result
        ("mse", "ARMA-v0", "M-1") = Option.none)
    ∧ ((dget (add_model okRunner 100 0 expArmaNoModels (some "M")
        (some []) Option.none).2.1.prob_model_to_result
        ("mse", "ARMA-v0", "M")).isSome = true) := by
  refine ⟨?_, ?_⟩ <;> decide

/-- C3, amended: on an initialized experiment with the one problem
"ARMA-v0" and metric "mse" whose models mapping includes "RNN", calling
add_model("RNN", {"optimizer": SomeOptimizer}) raises nothing and
inserts the key ("mse", "ARMA-v0", "RNN-SomeOptimizer") into the results
table, with a loss series whose length is the frozen precomputed
timestep count (the count `add_model` passes to the trial runner), which
equals the experiment's configured count only when the two agree. -/
theorem c3_amended_inserts_suffixed_key (st : ExperimentState)
    (runner : Runner) (frozenT frozenKey : Nat) (pp : Option Params)
    (optName : String) (out : TrialOut)
    (hpro : st.problems = [("ARMA-v0", pp)])
    (hmet : st.metrics = ["mse"])
    (hmod : hasKey st.models "RNN" = true)
    (hrun : runner { problem_id := "ARMA-v0", problem_params := pp,
                     model_id := "RNN",
                     model_params := some [("optimizer", PyVal.cls optName)],
                     metric := "mse", key := frozenKey,
                     timesteps := frozenT, verbose := st.verbose,
                     load_bar := st.load_bar } = Except.ok out)
    (hlen : out.loss.length = frozenT) :
    (add_model runner frozenT frozenKey st (some "RNN")
        (some [("optimizer", PyVal.cls optName)]) Option.none).1 = Option.none
    ∧ dget (add_model runner frozenT frozenKey st (some "RNN")
        (some [("optimizer", PyVal.cls optName)])
        Option.none).2.1.prob_model_to_result
        ("mse", "ARMA-v0", "RNN" ++ "-" ++ optName)
      = some (RVal.series out.loss)
    ∧ out.loss.length = frozenT := by
  have hres : resolveName Option.none (some [("optimizer", PyVal.cls optName)])
      = Except.ok (some optName) := by
    simp [resolveName, pyContains, hasKey, dget, dunderName]
  have hkey : deriveNewId st.models st.n_models "RNN" (some optName)
      = ("RNN" ++ "-" ++ optName,
         if hasKey st.n_models "RNN" then st.n_models
         else dset st.n_models "RNN" 0) := by
    simp [deriveNewId, hmod]
  simp only [add_model, hres, hkey, hmet, hpro]
  simp only [List.flatMap_cons, List.flatMap_nil, List.map_cons, List.map_nil,
    List.append_nil]
  simp only [runPairs]
  rw [hrun]
  refine ⟨rfl, ?_, hlen⟩
  show dget (dset (dset (dset st.prob_model_to_result
      ("mse", "ARMA-v0", "RNN" ++ "-" ++ optName) (RVal.series out.loss))
      ("time", "ARMA-v0", "RNN" ++ "-" ++ optName) (RVal.scalar out.time))
      ("memory", "ARMA-v0", "RNN" ++ "-" ++ optName) (RVal.scalar out.memory))
      ("mse", "ARMA-v0", "RNN" ++ "-" ++ optName) = some (RVal.series out.loss)
  rw [dget_dset_ne _ _ _ _ (by simp), dget_dset_ne _ _ _ _ (by simp),
    dget_dset_self]

/-- Witness for C3's amended theorem, at the concrete experiment
`expArmaRNN50` (problem "ARMA-v0", model "RNN", metric "mse", configured
timesteps 50, frozen count 100) with the always-succeeding runner. -/
theorem c3_amended_witness :
    (add_model okRunner 100 0 expArmaRNN50 (some "RNN")
        (some [("optimizer", PyVal.cls "SomeOptimizer")])
        Option.none).1 = Option.none
    ∧ dget (add_model okRunner 100 0 expArmaRNN50 (some "RNN")
        (some [("optimizer", PyVal.cls "SomeOptimizer")])
        Option.none).2.1.prob_model_to_result
        ("mse", "ARMA-v0", "RNN" ++ "-" ++ "SomeOptimizer")
      = some (RVal.series (List.replicate 100 0))
    ∧ (List.replicate 100 (0 : Int)).length = 100 :=
  c3_amended_inserts_suffixed_key expArmaRNN50 okRunner 100 0 Option.none
    "SomeOptimizer" { loss := List.replicate 100 0, time := 1, memory := 1 }
    (by decide) (by decide) (by decide) rfl (by simp)

/-- C4, amended: on an initialized experiment whose models mapping
includes model_id, with no duplicate count yet recorded for it, calling
`add_model` twice with that model_id, no explicit name, model parameters
containing no optimizer entry, and an always-succeeding runner stores
the first call's results under model_id-1 and the second call's under
model_id-2 — two distinct keys, both present afterwards for every
(metric, problem) combination of the experiment.  (When model_id is not
among the models, the code instead uses the bare model_id first, as the
counterexample shows.) -/
theorem c4_amended_duplicate_counter_keys (st : ExperimentState)
    (runner : Runner) (frozenT frozenKey : Nat) (mid : String) (d : Params)
    (mtr pid : String) (pp : Option Params)
    (hm : hasKey st.models mid = true)
    (hn : dget st.n_models mid = Option.none)
    (hopt : hasKey d "optimizer" = false)
    (hrun : ∀ inp, ∃ r, runner inp = Except.ok r)
    (hmtr : mtr ∈ st.metrics)
    (hpp : (pid, pp) ∈ st.problems) :
    mid ++ "-1" ≠ mid ++ "-2"
    ∧ ((dget (add_model runner frozenT frozenKey st (some mid) (some d)
        Option.none).2.1.prob_model_to_result
        (mtr, pid, mid ++ "-1")).isSome = true)
    ∧ ((dget (add_model runner frozenT frozenKey
          (add_model runner frozenT frozenKey st (some mid) (some d)
            Option.none).2.1
          (some mid) (some d) Option.none).2.1.prob_model_to_result
        (mtr, pid, mid ++ "-1")).isSome = true)
    ∧ ((dget (add_model runner frozenT frozenKey
          (add_model runner frozenT frozenKey st (some mid) (some d)
            Option.none).2.1
          (some mid) (some d) Option.none).2.1.prob_model_to_result
        (mtr, pid, mid ++ "-2")).isSome = true) := by
  have hres : resolveName Option.none (some d) = Except.ok Option.none := by
    simp [resolveName, pyContains, hopt]
  have hs1 : mid ++ "-" ++ toString 1 = mid ++ "-1" := by
    rw [String.append_assoc]
    exact congrArg (fun t => mid ++ t) (by decide)
  have hs2 : mid ++ "-" ++ toString (1 + 1) = mid ++ "-2" := by
    rw [String.append_assoc]
    exact congrArg (fun t => mid ++ t) (by decide)
  have hkfalse : hasKey st.n_models mid = false := by simp [hasKey, hn]
  have hkey1 : deriveNewId st.models st.n_models mid Option.none
      = (mid ++ "-1", dset (dset st.n_models mid 0) mid 1) := by
    simp [deriveNewId, hm, hkfalse, dget_dset_self, hs1]
  have hA1 : add_model runner frozenT frozenKey st (some mid) (some d)
        Option.none
      = runPairs runner frozenT frozenKey mid (some d) (mid ++ "-1")
          (st.metrics.flatMap fun metric =>
            st.problems.map fun pp2 => (metric, pp2.1, pp2.2))
          { st with n_models := dset (dset st.n_models mid 0) mid 1 } [] := by
    simp only [add_model, hres, hkey1]
  have hmem1 : (mtr, pid, pp) ∈ st.metrics.flatMap (fun metric =>
      st.problems.map fun pp2 => (metric, pp2.1, pp2.2)) :=
    List.mem_flatMap.mpr ⟨mtr, hmtr, List.mem_map.mpr ⟨(pid, pp), hpp, rfl⟩⟩
  have present1 : (dget (add_model runner frozenT frozenKey st (some mid)
      (some d) Option.none).2.1.prob_model_to_result
      (mtr, pid, mid ++ "-1")).isSome = true := by
    rw [hA1]
    exact runPairs_mem_present runner frozenT frozenKey mid (some d)
      (mid ++ "-1") _ _ [] mtr pid pp hrun hmem1
  have hm2 : hasKey (add_model runner frozenT frozenKey st (some mid)
      (some d) Option.none).2.1.models mid = true := by
    rw [hA1]
    exact runPairs_models_mono runner frozenT frozenKey mid (some d)
      (mid ++ "-1") _ _ [] mid hm
  have hn2 : dget (add_model runner frozenT frozenKey st (some mid)
      (some d) Option.none).2.1.n_models mid = some 1 := by
    rw [hA1, runPairs_n_models]
    exact dget_dset_self _ _ _
  have hktrue2 : hasKey (add_model runner frozenT frozenKey st (some mid)
      (some d) Option.none).2.1.n_models mid = true := by
    simp [hasKey, hn2]
  have hkey2 : deriveNewId
        (add_model runner frozenT frozenKey st (some mid) (some d)
          Option.none).2.1.models
        (add_model runner frozenT frozenKey st (some mid) (some d)
          Option.none).2.1.n_models mid Option.none
      = (mid ++ "-2", dset (add_model runner frozenT frozenKey st (some mid)
          (some d) Option.none).2.1.n_models mid (1 + 1)) := by
    simp [deriveNewId, hm2, hktrue2, hn2, hs2]
  have hmet2 : (add_model runner frozenT frozenKey st (some mid) (some d)
      Option.none).2.1.metrics = st.metrics := by
    rw [hA1, runPairs_metrics]
  have hpro2 : (add_model runner frozenT frozenKey st (some mid) (some d)
      Option.none).2.1.problems = st.problems := by
    rw [hA1, runPairs_problems]
  have hA2 : add_model runner frozenT frozenKey
        (add_model runner frozenT frozenKey st (some mid) (some d)
          Option.none).2.1 (some mid) (some d) Option.none
      = runPairs runner frozenT frozenKey mid (some d) (mid ++ "-2")
          (st.metrics.flatMap fun metric =>
            st.problems.map fun pp2 => (metric, pp2.1, pp2.2))
          { (add_model runner frozenT frozenKey st (some mid) (some d)
              Option.none).2.1 with
            n_models := dset (add_model runner frozenT frozenKey st (some mid)
              (some d) Option.none).2.1.n_models mid (1 + 1) } [] := by
    generalize hS1 : (add_model runner frozenT frozenKey st (some mid)
      (some d) Option.none).2.1 = S1 at hkey2 hmet2 hpro2 ⊢
    simp only [add_model, hres, hkey2, hmet2, hpro2]
  have hne : mid ++ "-1" ≠ mid ++ "-2" := by
    intro h
    have h2 := congrArg String.data h
    rw [String.data_append, String.data_append] at h2
    have h3 := List.append_cancel_left h2
    simp at h3
  refine ⟨hne, present1, ?_, ?_⟩
  · rw [hA2]
    exact runPairs_table_mono runner frozenT frozenKey mid (some d)
      (mid ++ "-2") _ _ [] (mtr, pid, mid ++ "-1") present1
  · rw [hA2]
    exact runPairs_mem_present runner frozenT frozenKey mid (some d)
      (mid ++ "-2") _ _ [] mtr pid pp hrun hmem1

/-- Witness for C4's amended theorem, at the concrete experiment
`expP0M` (problem "p0", model "M", metric "mse") with the
always-succeeding runner. -/
theorem c4_amended_witness :
    "M" ++ "-1" ≠ "M" ++ "-2"
    ∧ ((dget (add_model okRunner 100 0 expP0M (some "M") (some [])
        Option.none).2.1.prob_model_to_result
        ("mse", "p0", "M" ++ "-1")).isSome = true)
    ∧ ((dget (add_model okRunner 100 0
          (add_model okRunner 100 0 expP0M (some "M") (some [])
            Option.none).2.1
          (some "M") (some []) Option.none).2.1.prob_model_to_result
        ("mse", "p0", "M" ++ "-1")).isSome = true)
    ∧ ((dget (add_model okRunner 100 0
          (add_model okRunner 100 0 expP0M (some "M") (some [])
            Option.none).2.1
          (some "M") (some []) Option.none).2.1.prob_model_to_result
        ("mse", "p0", "M" ++ "-2")).isSome = true) :=
  c4_amended_duplicate_counter_keys expP0M okRunner 100 0 "M" [] "mse" "p0"
    Option.none (by decide) (by decide) (by decide)
    (fun inp => ⟨_, rfl⟩) (by decide) (by decide)

/-- C5: for every call to `add_model` (with successfully resolved name,
see `resolveName` for the raising cases in which nothing is stored), the
key derived by the code equals the key the spec describes
(`claimDerivedKey`): the bare model_id when it is not yet a key of the
models mapping, model_id-name when a name is resolvable, and otherwise
model_id dash the incremented per-model_id duplicate counter; and every
results-table entry whose key is not under that derived key is left
untouched, i.e. results are stored only under the derived key. -/
theorem c5_key_derivation_matches_spec (runner : Runner)
    (frozenT frozenKey : Nat) (st : ExperimentState) (mid : String)
    (mp : Option Params) (name nm : Option String)
    (hres : resolveName name mp = Except.ok nm) :
    (deriveNewId st.models st.n_models mid nm).1
      = claimDerivedKey st.models st.n_models mid nm
    ∧ ∀ k : RKey, k.2.2 ≠ claimDerivedKey st.models st.n_models mid nm →
        dget (add_model runner frozenT frozenKey st (some mid) mp
            name).2.1.prob_model_to_result k
          = dget st.prob_model_to_result k := by
  have heq : (deriveNewId st.models st.n_models mid nm).1
      = claimDerivedKey st.models st.n_models mid nm := by
    by_cases h1 : hasKey st.models mid = true
    · cases nm with
      | some n => simp [deriveNewId, claimDerivedKey, h1]
      | none =>
          by_cases h2 : hasKey st.n_models mid = true
          · simp [deriveNewId, claimDerivedKey, h1, h2]
          · have h3 : dget st.n_models mid = Option.none := by
              rw [← Option.not_isSome_iff_eq_none]
              intro hcontra
              exact h2 hcontra
            simp [deriveNewId, claimDerivedKey, h1, h2, dget_dset_self, h3]
    · simp [deriveNewId, claimDerivedKey, h1]
  refine ⟨heq, fun k hk => ?_⟩
  have hk2 : k.2.2 ≠ (deriveNewId st.models st.n_models mid nm).1 := by
    rw [heq]; exact hk
  simp only [add_model, hres]
  rw [runPairs_frame runner frozenT frozenKey mid mp _ _ _ [] k hk2]

/-- Witness for C5's theorem, at the concrete experiment `expP0M` with
an anonymous duplicate of "M" (derived key "M-1") and the untouched
entry key ("mse", "p0", "X"). -/
theorem c5_witness :
    (deriveNewId expP0M.models expP0M.n_models "M" Option.none).1
      = claimDerivedKey expP0M.models expP0M.n_models "M" Option.none
    ∧ dget (add_model okRunner 100 0 expP0M (some "M") (some [])
        Option.none).2.1.prob_model_to_result ("mse", "p0", "X")
      = dget expP0M.prob_model_to_result ("mse", "p0", "X") :=
  ⟨(c5_key_derivation_matches_spec okRunner 100 0 expP0M "M" (some [])
      Option.none Option.none rfl).1,
   (c5_key_derivation_matches_spec okRunner 100 0 expP0M "M" (some [])
      Option.none Option.none rfl).2 ("mse", "p0", "X") (by decide)⟩

/-- C6: `initialize` in precomputed mode with a timestep count different
from the frozen precomputed value prints the fixed-timesteps warning
(raising nothing — the embedded `initExp` cannot raise) and still
produces a results table covering every requested (metric, problem_id,
model_id) triple, each with a series of the frozen timestep length.
The store itself is `load_prob_model_to_result`, modelled from the spec
(precomputed.py is not under src/). -/
theorem c6_precomputed_timesteps_mismatch (frozenT : Nat)
    (data : String → String → String → Nat → Int)
    (pipeline : NewExpArgs → List (RKey × RVal)) (st : ExperimentState)
    (problems models : ArgVal)
    (ptm : Option (List (String × List String)))
    (metrics : List String) (T : Nat) (vb lb : Bool)
    (hT : T ≠ frozenT) :
    "WARNING: when using precomputed results, number of timesteps is fixed."
      ∈ (initExp frozenT data pipeline st problems models ptm metrics
          true T vb lb).2
    ∧ ∀ mtr pm, mtr ∈ metrics →
        pm ∈ requestedPairs ((to_dict problems).map Prod.fst)
              ((to_dict models).map Prod.fst) ptm →
        ∃ xs, dget (initExp frozenT data pipeline st problems models ptm
              metrics true T vb lb).1.prob_model_to_result (mtr, pm.1, pm.2)
            = some (RVal.series xs) ∧ xs.length = frozenT := by
  constructor
  · simp [initExp, hT]
  · intro mtr pm hm hp
    refine ⟨(List.range frozenT).map (data mtr pm.1 pm.2), ?_, by simp⟩
    simp only [initExp]
    exact load_covers frozenT data _ _ ptm metrics mtr pm hm hp

/-- Witness for C6's theorem: requested timesteps 50 against frozen
count 100, one problem and one model, no restriction. -/
theorem c6_witness :
    "WARNING: when using precomputed results, number of timesteps is fixed."
      ∈ (initExp 100 zeroData emptyPipeline experimentNew
          (ArgVal.listIds ["ARMA-v0"]) (ArgVal.listIds ["RNN"]) Option.none
          ["mse"] true 50 true true).2
    ∧ ∃ xs, dget (initExp 100 zeroData emptyPipeline experimentNew
          (ArgVal.listIds ["ARMA-v0"]) (ArgVal.listIds ["RNN"]) Option.none
          ["mse"] true 50 true true).1.prob_model_to_result
          ("mse", "ARMA-v0", "RNN")
        = some (RVal.series xs) ∧ xs.length = 100 :=
  ⟨(c6_precomputed_timesteps_mismatch 100 zeroData emptyPipeline
      experimentNew (ArgVal.listIds ["ARMA-v0"]) (ArgVal.listIds ["RNN"])
      Option.none ["mse"] 50 true true (by decide)).1,
   (c6_precomputed_timesteps_mismatch 100 zeroData emptyPipeline
      experimentNew (ArgVal.listIds ["ARMA-v0"]) (ArgVal.listIds ["RNN"])
      Option.none ["mse"] 50 true true (by decide)).2 "mse" ("ARMA-v0", "RNN")
      (by decide) (by decide)⟩

/-- C7: a call to `add_model` (with successfully resolved name) leaves
every results-table entry whose model-id component differs from the
derived key unchanged: the only keys written carry the derived key as
their model component. -/
theorem c7_frame_preserves_other_models (runner : Runner)
    (frozenT frozenKey : Nat) (st : ExperimentState) (mid : String)
    (mp : Option Params) (name nm : Option String) (k : RKey)
    (hres : resolveName name mp = Except.ok nm)
    (hk : k.2.2 ≠ (deriveNewId st.models st.n_models mid nm).1) :
    dget (add_model runner frozenT frozenKey st (some mid) mp
        name).2.1.prob_model_to_result k
      = dget st.prob_model_to_result k := by
  simp only [add_model, hres]
  rw [runPairs_frame runner frozenT frozenKey mid mp _ _ _ [] k hk]

/-- Witness for C7's theorem: the entry ("mse", "ARMA-v0", "RNN") of
`expArmaRNN50` is unchanged by adding "M" (derived key "M", distinct
from "RNN"). -/
theorem c7_witness :
    dget (add_model okRunner 100 0 expArmaRNN50 (some "M") (some [])
        Option.none).2.1.prob_model_to_result ("mse", "ARMA-v0", "RNN")
      = dget expArmaRNN50.prob_model_to_result ("mse", "ARMA-v0", "RNN") :=
  c7_frame_preserves_other_models okRunner 100 0 expArmaRNN50 "M" (some [])
    Option.none Option.none ("mse", "ARMA-v0", "RNN") rfl (by decide)

/-- C8: `initialize` is not re-entrant and merges nothing: the stored
problems, models, problem-to-models restriction, metrics, precomputed
flag, timestep count, duplicate counters and results table (and the
printed lines) after a call on any prior state are exactly those a
single call with the same arguments produces on a fresh instance
(`experimentNew`). -/
theorem c8_reinit_replaces_state (frozenT : Nat)
    (data : String → String → String → Nat → Int)
    (pipeline : NewExpArgs → List (RKey × RVal)) (st : ExperimentState)
    (problems models : ArgVal)
    (ptm : Option (List (String × List String)))
    (metrics : List String) (up : Bool) (T : Nat) (vb lb : Bool) :
    (initExp frozenT data pipeline st problems models ptm metrics up T
        vb lb).1.problems
      = (initExp frozenT data pipeline experimentNew problems models ptm
          metrics up T vb lb).1.problems
    ∧ (initExp frozenT data pipeline st problems models ptm metrics up T
        vb lb).1.models
      = (initExp frozenT data pipeline experimentNew problems models ptm
          metrics up T vb lb).1.models
    ∧ (initExp frozenT data pipeline st problems models ptm metrics up T
        vb lb).1.problem_to_models
      = (initExp frozenT data pipeline experimentNew problems models ptm
          metrics up T vb lb).1.problem_to_models
    ∧ (initExp frozenT data pipeline st problems models ptm metrics up T
        vb lb).1.metrics
      = (initExp frozenT data pipeline experimentNew problems models ptm
          metrics up T vb lb).1.metrics
    ∧ (initExp frozenT data pipeline st problems models ptm metrics up T
        vb lb).1.use_precomputed
      = (initExp frozenT data pipeline experimentNew problems models ptm
          metrics up T vb lb).1.use_precomputed
    ∧ (initExp frozenT data pipeline st problems models ptm metrics up T
        vb lb).1.timesteps
      = (initExp frozenT data pipeline experimentNew problems models ptm
          metrics up T vb lb).1.timesteps
    ∧ (initExp frozenT data pipeline st problems models ptm metrics up T
        vb lb).1.n_models
      = (initExp frozenT data pipeline experimentNew problems models ptm
          metrics up T vb lb).1.n_models
    ∧ (initExp frozenT data pipeline st problems models ptm metrics up T
        vb lb).1.prob_model_to_result
      = (initExp frozenT data pipeline experimentNew problems models ptm
          metrics up T vb lb).1.prob_model_to_result
    ∧ (initExp frozenT data pipeline st problems models ptm metrics up T
        vb lb).2
      = (initExp frozenT data pipeline experimentNew problems models ptm
          metrics up T vb lb).2 := by
  cases up <;> exact ⟨rfl, rfl, rfl, rfl, rfl, rfl, rfl, rfl, rfl⟩

/-- C10: the attribute `new_models` consulted by `scoreboard`'s timing
warning is never assigned: it is absent on a fresh instance and every
method (`initialize`, `add_model`) leaves it absent; therefore on a
precomputed experiment `scoreboard` with metric "time" raises an
uncaught `AttributeError`, while any metric other than "time"
short-circuits the guard and can never produce an `AttributeError`. -/
theorem c10_scoreboard_time_attributeError :
    (experimentNew.new_models = Option.none)
    ∧ (∀ frozenT data pipeline st problems models ptm metrics up T vb lb,
        (initExp frozenT data pipeline st problems models ptm metrics up T
          vb lb).1.new_models = st.new_models)
    ∧ (∀ (runner : Runner) (frozenT frozenKey : Nat)
        (st : ExperimentState) (model_id : Option String)
        (mp : Option Params) (name : Option String),
        (add_model runner frozenT frozenKey st model_id mp
          name).2.1.new_models = st.new_models)
    ∧ (∀ (st : ExperimentState) (vb : Bool), st.use_precomputed = true →
        st.new_models = Option.none →
        scoreboard st "time" vb = Except.error PyErr.attributeError)
    ∧ (∀ (st : ExperimentState) (vb : Bool) (metric : String),
        metric ≠ "time" →
        scoreboard st metric vb ≠ Except.error PyErr.attributeError) := by
  refine ⟨rfl, ?_, ?_, ?_, ?_⟩
  · intro frozenT data pipeline st problems models ptm metrics up T vb lb
    cases up <;> rfl
  · intro runner frozenT frozenKey st model_id mp name
    cases model_id with
    | none => rfl
    | some mid =>
        simp only [add_model]
        cases hres : resolveName name mp with
        | error e => rfl
        | ok nm =>
            exact runPairs_new_models runner frozenT frozenKey mid mp _ _ _ []
  · intro st vb h1 h2
    simp [scoreboard, h1, h2]
  · intro st vb metric hne
    have hbeq : (metric == "time") = false := by
      rw [beq_eq_false_iff_ne]
      exact hne
    simp only [scoreboard, hbeq, Bool.and_false]
    cases hsr : scoreRows st.prob_model_to_result metric
        (st.models.map fun p => p.1) (st.problems.map fun p => p.1) with
    | error e =>
        show Except.error e ≠ Except.error PyErr.attributeError
        intro hcontra
        injection hcontra with he
        have hkey := scoreRows_error_eq _ _ _ _ _ hsr
        rw [he] at hkey
        exact PyErr.noConfusion hkey
    | ok rows =>
        show Except.ok _ ≠ Except.error PyErr.attributeError
        intro hcontra
        exact Except.noConfusion hcontra

/-- Witness for C10's theorem: on the concrete precomputed experiment
`expArmaNoModels`, `scoreboard` with metric "time" yields
`AttributeError` and with metric "mse" does not. -/
theorem c10_witness :
    scoreboard expArmaNoModels "time" true
      = Except.error PyErr.attributeError
    ∧ scoreboard expArmaNoModels "mse" true
      ≠ Except.error PyErr.attributeError :=
  ⟨c10_scoreboard_time_attributeError.2.2.2.1 expArmaNoModels true
      (by decide) (by decide),
   c10_scoreboard_time_attributeError.2.2.2.2 expArmaNoModels true "mse"
      (by decide)⟩
